import Mathlib

/-!
Shallow embedding of `push_client.py` from idigi-python-monitor-api.

Bytes are modelled as `List Nat` (each element a byte value 0..255 where
it matters).  `struct.pack`/`struct.unpack` with big-endian formats are
modelled by `pack16`/`pack32`/`beVal` together with Python slicing
(`pySlice data a b` is `data[a:b]`, which clamps at the end of the
buffer).  `struct.unpack` requires the sliced string to have exactly the
size of the format and raises `struct.error` otherwise; this is modelled
by the `unpack2`/`unpack1`/`unpack4s` functions returning `Option`.
-/

namespace PushModel

set_option autoImplicit false

/-- Push opcodes, from the constants at the top of push_client.py. -/
def CONNECTION_REQUEST : Nat := 0x01

def CONNECTION_RESPONSE : Nat := 0x02

def PUBLISH_MESSAGE : Nat := 0x03

def PUBLISH_MESSAGE_RECEIVED : Nat := 0x04

def STATUS_OK : Nat := 200

/-- Big-endian value of a byte string, as struct.unpack computes it. -/
def beVal (bs : List Nat) : Nat :=
  bs.foldl (fun acc b => 256 * acc + b) 0

/-- struct.pack with format !H: two big-endian bytes. -/
def pack16 (n : Nat) : List Nat :=
  [n / 256 % 256, n % 256]

/-- struct.pack with format !L: four big-endian bytes. -/
def pack32 (n : Nat) : List Nat :=
  [n / 2 ^ 24 % 256, n / 2 ^ 16 % 256, n / 2 ^ 8 % 256, n % 256]

/-- Python slice data[a:b] (for 0 <= a <= b): clamps at the end of the list. -/
def pySlice (data : List Nat) (a b : Nat) : List Nat :=
  (data.take b).drop a

/-- struct.unpack of format !H from data[off:off+2]: requires exactly 2 bytes,
raises struct.error (modelled as none) otherwise. -/
def unpack2 (data : List Nat) (off : Nat) : Option Nat :=
  if (pySlice data off (off + 2)).length = 2 then
    some (beVal (pySlice data off (off + 2)))
  else
    none

/-- struct.unpack of format !B from data[off:off+1]. -/
def unpack1 (data : List Nat) (off : Nat) : Option Nat :=
  if (pySlice data off (off + 1)).length = 1 then
    some (beVal (pySlice data off (off + 1)))
  else
    none

/-- Signed 32-bit interpretation of four big-endian bytes (format !i). -/
def signedVal (bs : List Nat) : Int :=
  if beVal bs < 2 ^ 31 then (beVal bs : Int) else (beVal bs : Int) - 2 ^ 32

/-- struct.unpack of format !i from data[off:off+4]. -/
def unpack4s (data : List Nat) (off : Nat) : Option Int :=
  if (pySlice data off (off + 4)).length = 4 then
    some (signedVal (pySlice data off (off + 4)))
  else
    none

/-- Errors raised on the handshake / connection-response path.
`pushBadLength` and `pushBadType` are the PushException raises in
send_connection_request; `typeError` models the TypeError raised by the
malformed % interpolation in the status check (the two-placeholder
template is applied to the single argument STATUS_OK, so Python raises
TypeError before any PushException is built); `attrError` models the
AttributeError raised when a method is invoked on None; `ioErr` wraps
socket/ssl level exceptions; `alreadyStarted` is the plain Exception
raised by start when a socket already exists. -/
inductive IOErr where
  | connectRefused
  | tlsFail
  | sendFail
  | timeout
  | recvFail
  deriving DecidableEq, Repr

inductive PErr where
  | ioErr : IOErr → PErr
  | pushBadLength : Nat → PErr
  | pushBadType : Nat → PErr
  | typeError : PErr
  | attrError : PErr
  | alreadyStarted : PErr
  deriving DecidableEq, Repr

/-- The payload of the ConnectionRequest, built in send_connection_request:
protocol version 1 (!H), username length (!H), username bytes, password
length (!H), password bytes, monitor id (!L). -/
def connectionRequestPayload (username password : List Nat) (monId : Nat) : List Nat :=
  pack16 0x01 ++ pack16 username.length ++ username ++
    pack16 password.length ++ password ++ pack32 monId

/-- The full ConnectionRequest frame: struct.pack("!HL", CONNECTION_REQUEST,
len(payload)) followed by the payload. -/
def encodeConnectionRequest (username password : List Nat) (monId : Nat) : List Nat :=
  pack16 CONNECTION_REQUEST ++
    pack32 (connectionRequestPayload username password monId).length ++
    connectionRequestPayload username password monId

/-- The checks that send_connection_request performs on the 10 bytes read
back from the socket (push_client.py lines 91-109):
length must be exactly 10 (else PushException with the length),
bytes 0:2 must decode to CONNECTION_RESPONSE (else PushException with the
decoded type), and bytes 6:8 must decode to STATUS_OK.  In the non-OK
status branch the source evaluates
"... (%d) is not STATUS_OK (%d)." % STATUS_OK, a two-placeholder template
with a single argument, so a TypeError is raised instead of the intended
PushException and the status code is not carried in the error. -/
def decodeConnectionResponse (response : List Nat) : Except PErr Unit :=
  if response.length ≠ 10 then
    .error (.pushBadLength response.length)
  else
    let t := beVal (pySlice response 0 2)
    if t ≠ CONNECTION_RESPONSE then
      .error (.pushBadType t)
    else
      let status := beVal (pySlice response 6 8)
      if status ≠ STATUS_OK then
        .error .typeError
      else
        .ok ()

/-- The decoded PublishMessage header fields, as read in PushClient.__select
(push_client.py lines 313-319).  payloadSize is the value inside the
1-tuple that struct.unpack returns (the source keeps the tuple; the value
is never used further). -/
structure MsgHeader where
  msgType : Nat
  aggregateCount : Nat
  blockId : Nat
  compression : Nat
  fmt : Nat
  payloadSize : Int
  payload : List Nat
  deriving DecidableEq, Repr

inductive DecodeErr where
  | structError
  deriving DecidableEq, Repr

/-- The sequence of struct.unpack calls in __select, as an Option chain:
the first failing unpack raises struct.error.  The source first runs
`if len(data) < 12: pass`, a no-op branch, and then unpacks
unconditionally; the no-op check is therefore not represented. -/
def decodeMessageHeaderOpt (data : List Nat) : Option MsgHeader := do
  let t ← unpack2 data 0
  let ac ← unpack2 data 6
  let bid ← unpack2 data 8
  let comp ← unpack1 data 10
  let f ← unpack1 data 11
  let ps ← unpack4s data 12
  pure ⟨t, ac, bid, comp, f, ps, data.drop 16⟩

def decodeMessageHeader (data : List Nat) : Except DecodeErr MsgHeader :=
  match decodeMessageHeaderOpt data with
  | some h => .ok h
  | none => .error .structError

/-- The PublishMessageReceived acknowledgment frame:
struct.pack("!HHH", PUBLISH_MESSAGE_RECEIVED, block_id, 200). -/
def packAck (blockId : Nat) : List Nat :=
  pack16 PUBLISH_MESSAGE_RECEIVED ++ pack16 blockId ++ pack16 200

/-- A PushSession, reduced to the state the claims concern: its socket
member, which is None until start succeeds, the live socket handle (the
file descriptor) while the session is active, and None again after
stop/failure. -/
structure Sess where
  sock : Option Nat
  deriving DecidableEq, Repr

/-- PushSession.stop (push_client.py lines 133-139): it runs
self.socket.close() unconditionally and then sets self.socket = None.
When the socket member is already None (session already stopped),
None.close() raises AttributeError, so the call fails instead of being a
no-op. -/
def Sess.stop (s : Sess) : Except PErr Sess :=
  match s.sock with
  | none => .error .attrError
  | some _ => .ok ⟨none⟩

/-- The environment a handshake runs against: whether connect (including
the TLS wrap of SecurePushSession) fails, whether the request send fails,
and what the blocking 10-second recv yields (an IOErr covers both a
socket error and the timeout). -/
structure Env where
  connectErr : Option IOErr
  sendErr : Option IOErr
  recvResult : Except IOErr (List Nat)
  deriving Repr

/-- PushSession.send_connection_request (push_client.py lines 54-113):
build and send the request, recv 10 bytes, run the response checks.  The
whole body sits in try/except: on any raised exception the socket is
closed, the socket member is set to None and the same exception is
re-raised. -/
def sendConnectionRequest (env : Env) (s : Sess) : Sess × Except PErr Unit :=
  match env.sendErr with
  | some e => (⟨none⟩, .error (.ioErr e))
  | none =>
    match env.recvResult with
    | .error e => (⟨none⟩, .error (.ioErr e))
    | .ok response =>
      match decodeConnectionResponse response with
      | .error e => (⟨none⟩, .error e)
      | .ok _ => (s, .ok ())

/-- PushSession.start (push_client.py lines 115-131; SecurePushSession.start
has the same shape with the TLS wrap folded into the connect phase):
raise if a socket already exists, create and connect the socket (on
exception: close, set None, re-raise), then run send_connection_request.
fd is the descriptor the OS assigns to the new socket. -/
def Sess.start (env : Env) (fd : Nat) (s : Sess) : Sess × Except PErr Unit :=
  match s.sock with
  | some _ => (s, .error .alreadyStarted)
  | none =>
    match env.connectErr with
    | some e => (⟨none⟩, .error (.ioErr e))
    | none => sendConnectionRequest env ⟨some fd⟩

/-- The PushClient state the claims concern: the sessions dict (a map
from socket file descriptor to PushSession, modelled as an association
list) and the closed flag. -/
structure ClientSt where
  sessions : List (Nat × Sess)
  closed : Bool
  deriving DecidableEq, Repr

/-- Python dict assignment self.sessions[fd] = session: overwrite the
entry if the key exists, append otherwise. -/
def regInsert (reg : List (Nat × Sess)) (k : Nat) (v : Sess) : List (Nat × Sess) :=
  if reg.any (fun p => p.1 = k) then
    reg.map (fun p => if p.1 = k then (k, v) else p)
  else
    reg ++ [(k, v)]

/-- One ready socket handled inside the __select while-loop (push_client.py
lines 304-333): recv the data, decode the header, and if the callback
returns true send the PublishMessageReceived acknowledgment.  The second
component collects the frames sent on the socket.  The surrounding
except clause prints any raised exception and continues, so a decode
failure (struct.error) leaves the client state unchanged: the session is
neither closed nor removed from the sessions dict. -/
def selectBody (st : ClientSt) (cb : List Nat → Bool) (data : List Nat) :
    ClientSt × List (List Nat) :=
  match decodeMessageHeader data with
  | .error _ => (st, [])
  | .ok h => (st, if cb h.payload then [packAck h.blockId] else [])

/-- The events that mutate a PushClient, as a step relation.
create: create_session after a successful start registers the session
under its socket file descriptor (push_client.py lines 363-372).
recv: one __select iteration serving fd with received bytes data; the
state component of selectBody is the next state.
stopAll: stop_all sets the closed flag (lines 375-383).
ioExit: the finally clause of __select runs once the loop observes the
closed flag and calls stop on every registered session; when every
registered session still holds an open socket all stops succeed, every
socket member becomes None, and the sessions dict keeps all its keys
(lines 334-336). -/
inductive Step : ClientSt → ClientSt → Prop where
  | create (s : ClientSt) (fd : Nat) :
      Step s ⟨regInsert s.sessions fd ⟨some fd⟩, s.closed⟩
  | recv (s : ClientSt) (fd : Nat) (cb : List Nat → Bool) (data : List Nat)
      (hfd : fd ∈ s.sessions.map Prod.fst) :
      Step s (selectBody s cb data).1
  | stopAll (s : ClientSt) :
      Step s ⟨s.sessions, true⟩
  | ioExit (s : ClientSt) (hc : s.closed = true)
      (hopen : ∀ p ∈ s.sessions, (p.2.sock).isSome) :
      Step s ⟨s.sessions.map (fun p => (p.1, ⟨none⟩)), true⟩

/-- The initial client state: empty sessions dict, not closed. -/
def initSt : ClientSt := ⟨[], false⟩

/-- States a PushClient can reach from construction. -/
def Reachable (s : ClientSt) : Prop :=
  Relation.ReflTransGen Step initSt s

theorem pySlice_length (data : List Nat) (a b : Nat) :
    (pySlice data a b).length = min b data.length - a := by
  simp [pySlice]

theorem unpack2_eq_some (data : List Nat) (off : Nat) (h : off + 2 ≤ data.length) :
    unpack2 data off = some (beVal (pySlice data off (off + 2))) := by
  have hl : (pySlice data off (off + 2)).length = 2 := by
    rw [pySlice_length]; omega
  simp [unpack2, hl]

theorem unpack1_eq_some (data : List Nat) (off : Nat) (h : off + 1 ≤ data.length) :
    unpack1 data off = some (beVal (pySlice data off (off + 1))) := by
  have hl : (pySlice data off (off + 1)).length = 1 := by
    rw [pySlice_length]; omega
  simp [unpack1, hl]

theorem unpack4s_eq_some (data : List Nat) (off : Nat) (h : off + 4 ≤ data.length) :
    unpack4s data off = some (signedVal (pySlice data off (off + 4))) := by
  have hl : (pySlice data off (off + 4)).length = 4 := by
    rw [pySlice_length]; omega
  simp [unpack4s, hl]

theorem unpack4s_eq_none (data : List Nat) (h : data.length < 16) :
    unpack4s data 12 = none := by
  have hl : (pySlice data 12 (12 + 4)).length ≠ 4 := by
    rw [pySlice_length]; omega
  simp [unpack4s, hl]

theorem decodeMessageHeader_ok (data : List Nat) (h : 16 ≤ data.length) :
    decodeMessageHeader data = .ok
      ⟨beVal (pySlice data 0 2), beVal (pySlice data 6 8),
       beVal (pySlice data 8 10), beVal (pySlice data 10 11),
       beVal (pySlice data 11 12), signedVal (pySlice data 12 16),
       data.drop 16⟩ := by
  have h0 := unpack2_eq_some data 0 (by omega)
  have h6 := unpack2_eq_some data 6 (by omega)
  have h8 := unpack2_eq_some data 8 (by omega)
  have h10 := unpack1_eq_some data 10 (by omega)
  have h11 := unpack1_eq_some data 11 (by omega)
  have h12 := unpack4s_eq_some data 12 (by omega)
  simp only [decodeMessageHeader, decodeMessageHeaderOpt, h0, h6, h8, h10, h11, h12,
    Option.bind_eq_bind, Option.some_bind]

theorem decodeMessageHeaderOpt_none (data : List Nat) (h : data.length < 16) :
    decodeMessageHeaderOpt data = none := by
  have h12 := unpack4s_eq_none data h
  cases h0 : unpack2 data 0 <;>
    cases h6 : unpack2 data 6 <;>
      cases h8 : unpack2 data 8 <;>
        cases h10 : unpack1 data 10 <;>
          cases h11 : unpack1 data 11 <;>
            simp [decodeMessageHeaderOpt, h0, h6, h8, h10, h11, h12]

theorem decodeMessageHeader_err (data : List Nat) (h : data.length < 16) :
    decodeMessageHeader data = .error .structError := by
  simp [decodeMessageHeader, decodeMessageHeaderOpt_none data h]

theorem beVal_pack32 (n : Nat) : beVal (pack32 n) = n % 2 ^ 32 := by
  simp [beVal, pack32, List.foldl]
  omega

theorem selectBody_fst (st : ClientSt) (cb : List Nat → Bool) (data : List Nat) :
    (selectBody st cb data).1 = st := by
  unfold selectBody
  cases decodeMessageHeader data <;> rfl

theorem mem_keys_regInsert (reg : List (Nat × Sess)) (k : Nat) (v : Sess) (k0 : Nat)
    (h : k0 ∈ reg.map Prod.fst) : k0 ∈ (regInsert reg k v).map Prod.fst := by
  unfold regInsert
  by_cases hk : reg.any (fun p => p.1 = k)
  · simp only [hk, if_true, List.map_map]
    rcases List.mem_map.1 h with ⟨p, hp, rfl⟩
    refine List.mem_map.2 ⟨p, hp, ?_⟩
    by_cases hpk : p.1 = k <;> simp [Function.comp, hpk]
  · rw [if_neg hk, List.map_append]
    exact List.mem_append_left _ h

theorem sendConnectionRequest_err (env : Env) (s : Sess) (e : PErr)
    (h : (sendConnectionRequest env s).2 = .error e) :
    (sendConnectionRequest env s).1 = ⟨none⟩ := by
  unfold sendConnectionRequest at h ⊢
  cases hs : env.sendErr with
  | some e0 => simp [hs]
  | none =>
    cases hr : env.recvResult with
    | error e0 => simp [hs, hr]
    | ok r =>
      cases hd : decodeConnectionResponse r with
      | error e0 => simp [hs, hr, hd]
      | ok u => simp [hs, hr, hd] at h

/-- Claim C3: every received buffer of fewer than 16 bytes makes the
header decoding in the I/O loop fail by raising (struct.error from one of
the struct.unpack calls, the malformed-frame failure of the spec error
taxonomy); no short buffer is decoded as a success. -/
theorem claim_c3 (data : List Nat) (h : data.length < 16) :
    decodeMessageHeader data = .error .structError :=
  decodeMessageHeader_err data h

theorem claim_c3_witness :
    ([0x00, 0x03, 0x00, 0x00, 0x00, 0x00, 0x00, 0x01] : List Nat).length < 16 ∧
    decodeMessageHeader [0x00, 0x03, 0x00, 0x00, 0x00, 0x00, 0x00, 0x01] =
      .error .structError :=
  ⟨by decide, claim_c3 [0x00, 0x03, 0x00, 0x00, 0x00, 0x00, 0x00, 0x01] (by decide)⟩

/-- Claim C4 as stated is false: for username "u", password "p" and
subscription id 42 the 4-byte length field of the encoded
ConnectionRequest is 12, not 10, because the payload whose length is
measured includes the 2-byte protocol version.  The frame claimed by the
spec (length field 0x0000000A followed by the 12-byte payload) is not
what the encoder produces. -/
theorem claim_c4_counterexample :
    encodeConnectionRequest [0x75] [0x70] 42 ≠
      [0x00, 0x01, 0x00, 0x00, 0x00, 0x0A,
       0x00, 0x01, 0x00, 0x01, 0x75, 0x00, 0x01, 0x70, 0x00, 0x00, 0x00, 0x2A] ∧
    encodeConnectionRequest [0x75] [0x70] 42 =
      [0x00, 0x01, 0x00, 0x00, 0x00, 0x0C,
       0x00, 0x01, 0x00, 0x01, 0x75, 0x00, 0x01, 0x70, 0x00, 0x00, 0x00, 0x2A] := by
  constructor
  · decide
  · decide

/-- Claim C4 amended: the same frame but with length field
0x0000000C (= 12 = 2 + 2 + 1 + 2 + 1 + 4, the version field included);
in general the bytes after the 6-byte header are exactly the payload and
the 4-byte length field holds that payload byte length. -/
theorem claim_c4 :
    encodeConnectionRequest [0x75] [0x70] 42 =
      [0x00, 0x01, 0x00, 0x00, 0x00, 0x0C,
       0x00, 0x01, 0x00, 0x01, 0x75, 0x00, 0x01, 0x70, 0x00, 0x00, 0x00, 0x2A] ∧
    ∀ u p m : _, (connectionRequestPayload u p m).length < 2 ^ 32 →
      (encodeConnectionRequest u p m).drop 6 = connectionRequestPayload u p m ∧
      beVal (pySlice (encodeConnectionRequest u p m) 2 6) =
        ((encodeConnectionRequest u p m).drop 6).length := by
  refine ⟨by decide, fun u p m h => ⟨rfl, ?_⟩⟩
  have h1 : pySlice (encodeConnectionRequest u p m) 2 6 =
      pack32 (connectionRequestPayload u p m).length := rfl
  have h2 : (encodeConnectionRequest u p m).drop 6 =
      connectionRequestPayload u p m := rfl
  rw [h1, h2, beVal_pack32, Nat.mod_eq_of_lt h]

theorem claim_c4_witness :
    (connectionRequestPayload [0x75] [0x70] 42).length < 2 ^ 32 ∧
    (encodeConnectionRequest [0x75] [0x70] 42).drop 6 =
      connectionRequestPayload [0x75] [0x70] 42 ∧
    beVal (pySlice (encodeConnectionRequest [0x75] [0x70] 42) 2 6) =
      ((encodeConnectionRequest [0x75] [0x70] 42).drop 6).length :=
  ⟨by decide,
   (claim_c4.2 [0x75] [0x70] 42 (by decide)).1,
   (claim_c4.2 [0x75] [0x70] 42 (by decide)).2⟩

/-- Claim C5 concerns a code bug: for a 10-byte response with opcode 0x02
and a status other than 200 (here 400 and 403), the status check raises a
TypeError coming from the single-argument % interpolation of a
two-placeholder message template, instead of the intended PushException
carrying the status code; for status 200 the response is accepted. -/
theorem claim_c5 :
    decodeConnectionResponse [0x00, 0x02, 0x00, 0x00, 0x00, 0x00, 0x01, 0x90, 0x00, 0x00] =
      .error .typeError ∧
    decodeConnectionResponse [0x00, 0x02, 0x00, 0x00, 0x00, 0x00, 0x01, 0x93, 0x00, 0x00] =
      .error .typeError ∧
    decodeConnectionResponse [0x00, 0x02, 0x00, 0x00, 0x00, 0x00, 0x00, 0xC8, 0x00, 0x00] =
      .ok () :=
  ⟨rfl, rfl, rfl⟩

/-- Claim C6: a response buffer whose length is not exactly 10 is
rejected with the PushException that reports the bad length, and the
10-byte response 00 02 00 00 00 00 00 C8 00 00 (opcode 0x02, status 200)
is accepted. -/
theorem claim_c6 (r : List Nat) (h : r.length ≠ 10) :
    decodeConnectionResponse r = .error (.pushBadLength r.length) ∧
    decodeConnectionResponse [0x00, 0x02, 0x00, 0x00, 0x00, 0x00, 0x00, 0xC8, 0x00, 0x00] =
      .ok () := by
  refine ⟨?_, rfl⟩
  simp only [decodeConnectionResponse]
  rw [if_pos h]

theorem claim_c6_witness :
    ([0x00, 0x02, 0x00, 0x00, 0x00, 0x00, 0x00, 0xC8] : List Nat).length ≠ 10 ∧
    decodeConnectionResponse [0x00, 0x02, 0x00, 0x00, 0x00, 0x00, 0x00, 0xC8] =
      .error (.pushBadLength 8) :=
  ⟨by decide, (claim_c6 [0x00, 0x02, 0x00, 0x00, 0x00, 0x00, 0x00, 0xC8] (by decide)).1⟩

/-- Claim C7: for a buffer of at least 16 bytes the header decoding in
the I/O loop reads the aggregate count from bytes 6:8, the block id from
bytes 8:10, the compression flag from byte 10, the format flag from byte
11, the payload size as the signed 32-bit value of bytes 12:16, and the
payload as everything from offset 16 on; the spec example header with 5
payload bytes decodes to aggregateCount 1, blockId 7, compression 0,
format 1, payloadSize 5 and the 5 payload bytes. -/
theorem claim_c7 :
    (∀ data : List Nat, 16 ≤ data.length →
      decodeMessageHeader data = .ok
        ⟨beVal (pySlice data 0 2), beVal (pySlice data 6 8),
         beVal (pySlice data 8 10), beVal (pySlice data 10 11),
         beVal (pySlice data 11 12), signedVal (pySlice data 12 16),
         data.drop 16⟩) ∧
    decodeMessageHeader
        [0x00, 0x03, 0x00, 0x00, 0x00, 0x00, 0x00, 0x01, 0x00, 0x07,
         0x00, 0x01, 0x00, 0x00, 0x00, 0x05, 0x09, 0x08, 0x07, 0x06, 0x05] =
      .ok ⟨3, 1, 7, 0, 1, 5, [0x09, 0x08, 0x07, 0x06, 0x05]⟩ :=
  ⟨fun data h => decodeMessageHeader_ok data h, rfl⟩

theorem claim_c7_witness :
    16 ≤ ([0x00, 0x03, 0x00, 0x00, 0x00, 0x00, 0x00, 0x01, 0x00, 0x07,
           0x00, 0x01, 0x00, 0x00, 0x00, 0x05, 0x09, 0x08, 0x07, 0x06, 0x05] : List Nat).length ∧
    decodeMessageHeader
        [0x00, 0x03, 0x00, 0x00, 0x00, 0x00, 0x00, 0x01, 0x00, 0x07,
         0x00, 0x01, 0x00, 0x00, 0x00, 0x05, 0x09, 0x08, 0x07, 0x06, 0x05] =
      .ok ⟨3, 1, 7, 0, 1, 5, [0x09, 0x08, 0x07, 0x06, 0x05]⟩ := by
  refine ⟨by decide, ?_⟩
  have h := claim_c7.1
    [0x00, 0x03, 0x00, 0x00, 0x00, 0x00, 0x00, 0x01, 0x00, 0x07,
     0x00, 0x01, 0x00, 0x00, 0x00, 0x05, 0x09, 0x08, 0x07, 0x06, 0x05] (by decide)
  exact h

/-- Claim C10: the outcome of the connection-response checks on a 10-byte
buffer depends only on bytes 0:2 (the opcode) and bytes 6:8 (the status):
two 10-byte buffers agreeing on those slices decode identically, and any
10-byte buffer whose slices are 00 02 and 00 C8 is accepted whatever the
other bytes hold. -/
theorem claim_c10 (b1 b2 : List Nat) (h1 : b1.length = 10) (h2 : b2.length = 10)
    (e0 : pySlice b1 0 2 = pySlice b2 0 2) (e6 : pySlice b1 6 8 = pySlice b2 6 8) :
    decodeConnectionResponse b1 = decodeConnectionResponse b2 ∧
    (pySlice b1 0 2 = [0x00, 0x02] → pySlice b1 6 8 = [0x00, 0xC8] →
      decodeConnectionResponse b1 = .ok ()) := by
  constructor
  · simp [decodeConnectionResponse, h1, h2, e0, e6]
  · intro g0 g6
    simp [decodeConnectionResponse, h1, g0, g6, beVal, CONNECTION_RESPONSE, STATUS_OK]

theorem claim_c10_witness :
    decodeConnectionResponse [0x00, 0x02, 0x09, 0x09, 0x09, 0x09, 0x00, 0xC8, 0x09, 0x09] =
      decodeConnectionResponse [0x00, 0x02, 0x00, 0x00, 0x00, 0x00, 0x00, 0xC8, 0x00, 0x00] ∧
    decodeConnectionResponse [0x00, 0x02, 0x09, 0x09, 0x09, 0x09, 0x00, 0xC8, 0x09, 0x09] =
      .ok () := by
  have h := claim_c10
    [0x00, 0x02, 0x09, 0x09, 0x09, 0x09, 0x00, 0xC8, 0x09, 0x09]
    [0x00, 0x02, 0x00, 0x00, 0x00, 0x00, 0x00, 0xC8, 0x00, 0x00]
    (by decide) (by decide) (by decide) (by decide)
  exact ⟨h.1, h.2 (by decide) (by decide)⟩

/-- Claim C1: for every message the I/O loop decodes, the acknowledgment
is the only frame ever sent and it is sent exactly when the callback
returns true on the payload; the frame sent is the fixed 6-byte frame
opcode 0x04, the block id decoded from bytes 8:10 of the message, status
200, so block id 7 yields 00 04 00 07 00 C8. -/
theorem claim_c1 (st : ClientSt) (cb : List Nat → Bool) (data : List Nat)
    (hlen : 16 ≤ data.length) :
    ((selectBody st cb data).2 ≠ [] ↔ cb (data.drop 16) = true) ∧
    (selectBody st cb data).2 =
      (if cb (data.drop 16) then [packAck (beVal (pySlice data 8 10))] else []) ∧
    packAck 7 = [0x00, 0x04, 0x00, 0x07, 0x00, 0xC8] := by
  have hdec := decodeMessageHeader_ok data hlen
  refine ⟨?_, ?_, by decide⟩
  · simp only [selectBody, hdec]
    by_cases hcb : cb (data.drop 16) = true <;> simp [hcb]
  · simp only [selectBody, hdec]

theorem claim_c1_witness :
    16 ≤ ([0x00, 0x03, 0x00, 0x00, 0x00, 0x00, 0x00, 0x01, 0x00, 0x07,
           0x00, 0x01, 0x00, 0x00, 0x00, 0x05, 0x01, 0x02, 0x03, 0x04, 0x05] : List Nat).length ∧
    (selectBody initSt (fun _ => true)
        [0x00, 0x03, 0x00, 0x00, 0x00, 0x00, 0x00, 0x01, 0x00, 0x07,
         0x00, 0x01, 0x00, 0x00, 0x00, 0x05, 0x01, 0x02, 0x03, 0x04, 0x05]).2 =
      [[0x00, 0x04, 0x00, 0x07, 0x00, 0xC8]] ∧
    (selectBody initSt (fun _ => false)
        [0x00, 0x03, 0x00, 0x00, 0x00, 0x00, 0x00, 0x01, 0x00, 0x07,
         0x00, 0x01, 0x00, 0x00, 0x00, 0x05, 0x01, 0x02, 0x03, 0x04, 0x05]).2 = [] := by
  refine ⟨by decide, ?_, ?_⟩
  · have h := (claim_c1 initSt (fun _ => true)
      [0x00, 0x03, 0x00, 0x00, 0x00, 0x00, 0x00, 0x01, 0x00, 0x07,
       0x00, 0x01, 0x00, 0x00, 0x00, 0x05, 0x01, 0x02, 0x03, 0x04, 0x05] (by decide)).2.1
    rw [h]
    decide
  · have h := (claim_c1 initSt (fun _ => false)
      [0x00, 0x03, 0x00, 0x00, 0x00, 0x00, 0x00, 0x01, 0x00, 0x07,
       0x00, 0x01, 0x00, 0x00, 0x00, 0x05, 0x01, 0x02, 0x03, 0x04, 0x05] (by decide)).2.1
    rw [h]
    decide

/-- Claim C8: starting from an idle session, whenever the start path
fails (connect or TLS failure, send failure, receive error or timeout,
short read, wrong opcode, or the non-OK-status raise), the session socket
ends as None (no half-open transport) and the error raised by the failing
step is the one surfaced to the caller. -/
theorem claim_c8 (env : Env) (fd : Nat) :
    (∀ e, (Sess.start env fd ⟨none⟩).2 = .error e →
      (Sess.start env fd ⟨none⟩).1.sock = none) ∧
    (∀ e, env.connectErr = some e →
      Sess.start env fd ⟨none⟩ = (⟨none⟩, .error (.ioErr e))) ∧
    (∀ e, env.connectErr = none → env.sendErr = some e →
      Sess.start env fd ⟨none⟩ = (⟨none⟩, .error (.ioErr e))) ∧
    (∀ e, env.connectErr = none → env.sendErr = none → env.recvResult = .error e →
      Sess.start env fd ⟨none⟩ = (⟨none⟩, .error (.ioErr e))) ∧
    (∀ r e, env.connectErr = none → env.sendErr = none → env.recvResult = .ok r →
      decodeConnectionResponse r = .error e →
      Sess.start env fd ⟨none⟩ = (⟨none⟩, .error e)) := by
  refine ⟨?_, ?_, ?_, ?_, ?_⟩
  · intro e he
    unfold Sess.start at he ⊢
    cases hc : env.connectErr with
    | some e0 => simp
    | none =>
      simp only [hc] at he ⊢
      have := sendConnectionRequest_err env ⟨some fd⟩ e he
      rw [this]
  · intro e hc
    simp [Sess.start, hc]
  · intro e hc hs
    simp [Sess.start, sendConnectionRequest, hc, hs]
  · intro e hc hs hr
    simp [Sess.start, sendConnectionRequest, hc, hs, hr]
  · intro r e hc hs hr hd
    simp [Sess.start, sendConnectionRequest, hc, hs, hr, hd]

theorem claim_c8_witness :
    Sess.start ⟨none, none, Except.error IOErr.timeout⟩ 7 ⟨none⟩ =
      (⟨none⟩, Except.error (PErr.ioErr IOErr.timeout)) ∧
    Sess.start ⟨none, none, Except.ok [0x00, 0x02, 0x00, 0x00, 0x00, 0x00, 0x00, 0xC8]⟩
        7 ⟨none⟩ =
      (⟨none⟩, Except.error (PErr.pushBadLength 8)) :=
  ⟨(claim_c8 ⟨none, none, Except.error IOErr.timeout⟩ 7).2.2.2.1 IOErr.timeout
      rfl rfl rfl,
   (claim_c8 ⟨none, none, Except.ok [0x00, 0x02, 0x00, 0x00, 0x00, 0x00, 0x00, 0xC8]⟩ 7).2.2.2.2
      [0x00, 0x02, 0x00, 0x00, 0x00, 0x00, 0x00, 0xC8] (PErr.pushBadLength 8)
      rfl rfl rfl rfl⟩

/-- Claim C9 as stated is false: stop on an already-stopped session
(socket member None) is not a no-op — self.socket.close() is invoked on
None and raises AttributeError — so calling stop twice raises where
calling it once succeeds. -/
theorem claim_c9_counterexample :
    Sess.stop ⟨none⟩ = .error .attrError ∧
    Sess.stop ⟨some 3⟩ = .ok ⟨none⟩ ∧
    (Sess.stop ⟨some 3⟩).bind Sess.stop = .error .attrError :=
  ⟨rfl, rfl, rfl⟩

/-- Claim C9 amended: stop on a session holding an open socket closes it
and clears the socket member, but stop on an already-stopped session
raises AttributeError instead of succeeding as a no-op; stop is therefore
not idempotent. -/
theorem claim_c9 (s : Sess) (fd : Nat) (h : s.sock = some fd) :
    Sess.stop s = .ok ⟨none⟩ ∧ Sess.stop ⟨none⟩ = .error .attrError := by
  refine ⟨?_, rfl⟩
  simp [Sess.stop, h]

theorem claim_c9_witness :
    (⟨some 5⟩ : Sess).sock = some 5 ∧ Sess.stop ⟨some 5⟩ = .ok ⟨none⟩ :=
  ⟨rfl, (claim_c9 ⟨some 5⟩ 5 rfl).1⟩

/-- Claim C2 as stated is false on both counts: the registry does not
hold exactly the Active sessions — after shutdown the stopped sessions
keep their registry entries, giving a reachable state whose registry
holds a session with socket None — and a decode failure in the I/O loop
does not close or evict the session: the exception is printed and the
iteration ends with the client state unchanged, the session still
registered with its socket open. -/
theorem claim_c2_counterexample :
    (¬ ∀ st : ClientSt, Reachable st →
        ∀ p ∈ st.sessions, (p.2.sock).isSome = true) ∧
    selectBody ⟨[(5, ⟨some 5⟩)], false⟩ (fun _ => true) [0x00] =
      (⟨[(5, ⟨some 5⟩)], false⟩, []) := by
  constructor
  · intro hinv
    have h1 : Reachable ⟨[(5, ⟨some 5⟩)], false⟩ :=
      Relation.ReflTransGen.single (Step.create initSt 5)
    have h2 : Reachable ⟨[(5, ⟨some 5⟩)], true⟩ :=
      Relation.ReflTransGen.tail h1 (Step.stopAll _)
    have h3 : Reachable ⟨[(5, ⟨none⟩)], true⟩ :=
      Relation.ReflTransGen.tail h2
        (Step.ioExit ⟨[(5, ⟨some 5⟩)], true⟩ rfl (by decide))
    have h4 := hinv _ h3 (5, ⟨none⟩) (by simp)
    simp at h4
  · rfl

/-- Claim C2 amended: registration is permanent — no step of the client
ever removes a key from the sessions registry, and in particular a decode
failure in the I/O loop leaves the whole client state unchanged (the
session is neither closed nor evicted) while the loop carries on. -/
theorem claim_c2 (s t : ClientSt) (hstep : Step s t) :
    (∀ k, k ∈ s.sessions.map Prod.fst → k ∈ t.sessions.map Prod.fst) ∧
    (∀ cb data, decodeMessageHeader data = .error .structError →
      selectBody s cb data = (s, [])) := by
  constructor
  · intro k hk
    cases hstep with
    | create fd => exact mem_keys_regInsert _ _ _ _ hk
    | recv fd cb data hfd =>
      rw [selectBody_fst]
      exact hk
    | stopAll => exact hk
    | ioExit hc hopen =>
      simp only [List.map_map]
      rcases List.mem_map.1 hk with ⟨p, hp, rfl⟩
      exact List.mem_map.2 ⟨p, hp, rfl⟩
  · intro cb data hd
    simp [selectBody, hd]

theorem claim_c2_witness :
    (3 : Nat) ∈ ((⟨[(3, ⟨some 3⟩)], true⟩ : ClientSt).sessions.map Prod.fst) ∧
    selectBody ⟨[(3, ⟨some 3⟩)], false⟩ (fun _ => false) [0x00] =
      (⟨[(3, ⟨some 3⟩)], false⟩, []) :=
  ⟨(claim_c2 ⟨[(3, ⟨some 3⟩)], false⟩ ⟨[(3, ⟨some 3⟩)], true⟩ (Step.stopAll _)).1
      3 (by decide),
   (claim_c2 ⟨[(3, ⟨some 3⟩)], false⟩ ⟨[(3, ⟨some 3⟩)], true⟩ (Step.stopAll _)).2
      (fun _ => false) [0x00] (decodeMessageHeader_err [0x00] (by decide))⟩

end PushModel
